import Mathlib

/-!
# Verification of the portfolio page renderer (`src/js/main.js`)

A shallow embedding of the data model, renderers, data loader, navigation
scroll-spy and modal controller of the single-page portfolio site, together
with theorems settling the specification claims.

Conventions of the embedding:
* JSON documents become Lean structures (`Profile`, `SkillsDoc`, …).
* Each renderer becomes a function producing the markup string it assigns to
  its container via `innerHTML` (or the raw text it assigns via
  `textContent`).  JavaScript template literals become string concatenation;
  the incidental indentation/newline whitespace inside template literals is
  normalized away, which no claim depends on.
* The DOM anchors the code writes into become fields of a `Page` record; a
  renderer is a `Page → Page` state transformer, mirroring that the only
  effect of the code is assignment into these anchors.
* Stateful controllers (modal) become a step function on an explicit state
  type driven by an event type.
* Browser/JS primitives used by the code (`encodeURIComponent`, text-content
  extraction from markup, `[...new Set l]`) are modelled by executable Lean
  functions, documented where they are defined.
-/

namespace Portfolio

/-! ## Data model (schemas of the fetched JSON documents, spec §3) -/

structure Stat where
  value : String
  label : String
deriving DecidableEq, Repr

structure About where
  summary : String
  description : String
  cta : String
deriving DecidableEq, Repr

structure Social where
  email : Option String
  whatsapp : Option String
  linkedin : Option String
  github : Option String
  instagram : Option String
deriving DecidableEq, Repr

structure Profile where
  name : String
  tagline : String
  roles : List String
  avatar : String
  about : About
  stats : List Stat
  cv : String
  social : Social
deriving DecidableEq, Repr

structure Skill where
  name : String
  level : Nat
deriving DecidableEq, Repr

structure SkillCategory where
  name : String
  icon : String
  skills : List Skill
deriving DecidableEq, Repr

structure SkillsDoc where
  categories : List SkillCategory
deriving DecidableEq, Repr

structure ExperienceEntry where
  period : String
  role : String
  company : String
  description : String
  highlights : List String
deriving DecidableEq, Repr

structure ExperienceDoc where
  experiences : List ExperienceEntry
deriving DecidableEq, Repr

structure ProjectLinks where
  github : Option String
  demo : Option String
deriving DecidableEq, Repr

structure Project where
  id : String
  category : String
  title : String
  shortDescription : String
  description : String
  thumbnail : String
  images : List String
  techStack : List String
  highlights : List String
  year : String
  links : ProjectLinks
deriving DecidableEq, Repr

structure ProjectsDoc where
  projects : List Project
deriving DecidableEq, Repr

structure AchievementItem where
  title : String
  organization : String
  description : String
  year : String
  icon : Option String
deriving DecidableEq, Repr

structure AchievementsDoc where
  achievements : List AchievementItem
  certifications : List AchievementItem
deriving DecidableEq, Repr

/-! ## String helpers modelling JS / browser primitives -/

/-- The apostrophe character, used inside several markup strings. -/
def apos : String := String.singleton (Char.ofNat 39)

/-- Substring test on character lists: `subList p s` is `true` iff the list
`p` occurs contiguously inside `s`. -/
def subList (p : List Char) : List Char → Bool
  | [] => p.isEmpty
  | c :: rest => p.isPrefixOf (c :: rest) || subList p rest

/-- Substring test on strings. -/
def strContains (s pat : String) : Bool := subList pat.toList s.toList

/-- Characters left unescaped by JavaScript `encodeURIComponent`:
`A–Z a–z 0–9 - _ . ! ~ * ( )` and the apostrophe. -/
def uriUnescaped (c : Char) : Bool :=
  c.isAlpha || c.isDigit ||
    c == '-' || c == '_' || c == '.' || c == '!' || c == '~' || c == '*' ||
    c == Char.ofNat 39 || c == '(' || c == ')'

/-- Upper-case hexadecimal digit of `n < 16`. -/
def hexDigit (n : Nat) : Char :=
  if n < 10 then Char.ofNat (48 + n) else Char.ofNat (55 + n)

/-- Models JavaScript `encodeURIComponent` on ASCII strings: every character
outside the unescaped set is replaced by `%` followed by its two-digit
upper-case hex code.  (Multi-byte UTF-8 escaping is not modelled; all inputs
considered here are ASCII.) -/
def encodeURIComponent (s : String) : String :=
  ⟨s.toList.flatMap fun c =>
    if uriUnescaped c then [c]
    else ['%', hexDigit (c.toNat / 16), hexDigit (c.toNat % 16)]⟩

/-- Models how the browser interprets an `innerHTML` string: characters
between `<` and `>` form markup (tags); the remaining characters are the text
content of the fragment.  The flag is `true` while inside a tag. -/
def stripTagsAux : Bool → List Char → List Char
  | _, [] => []
  | false, c :: rest =>
    if c = '<' then stripTagsAux true rest else c :: stripTagsAux false rest
  | true, c :: rest =>
    if c = '>' then stripTagsAux false rest else stripTagsAux true rest

/-- The tag-parsing state after scanning a character list: `true` iff the
scan ends inside an unclosed tag. -/
def tagStateAfter : Bool → List Char → Bool
  | b, [] => b
  | false, c :: rest => tagStateAfter (if c = '<' then true else false) rest
  | true, c :: rest => tagStateAfter (if c = '>' then false else true) rest

/-- Text content of a markup string: what the browser renders as literal
text once the tags have been parsed away. -/
def textContent (s : String) : String := ⟨stripTagsAux false s.toList⟩

/-- Models `[...new Set l]` in JavaScript: a `Set` keeps insertion order and
ignores re-insertion, so spreading it back into an array yields the distinct
elements in first-seen order. -/
def jsSetDedup (l : List String) : List String :=
  l.foldl (fun acc c => if c ∈ acc then acc else acc ++ [c]) []

/-- Modelled from the spec: the distinct values of a list in first-seen
order — keep each first occurrence, drop every later duplicate.  Used to
compare the implementation of the category derivation against the spec
wording. -/
def firstSeenSpec : List String → List String
  | [] => []
  | a :: rest => a :: firstSeenSpec (rest.filter fun b => b ≠ a)
termination_by l => l.length
decreasing_by
  simp only [List.length_cons]
  exact Nat.lt_succ_of_le (List.length_filter_le _ _)

/-! ## Markup builders (the template literals of `src/js/main.js`) -/

/-- One role tag of `renderProfile` (main.js:64). -/
def roleTagHTML (role : String) : String :=
  "<span class=\"role-tag\">" ++ role ++ "</span>"

/-- The separator placed between consecutive role tags (main.js:65). -/
def roleSeparatorHTML : String := "<span class=\"role-separator\">•</span>"

/-- The markup assigned to `hero-roles` (main.js:63-66): each role in a tag,
with a separator after every role but the last. -/
def rolesHTML (roles : List String) : String :=
  String.join (roles.mapIdx fun index role =>
    roleTagHTML role ++
      if index < roles.length - 1 then roleSeparatorHTML else "")

/-- One stat card of `renderProfile` (main.js:80-85). -/
def statCardHTML (stat : Stat) : String :=
  "<div class=\"stat-card reveal\"><div class=\"stat-value\">" ++ stat.value ++
    "</div><div class=\"stat-label\">" ++ stat.label ++ "</div></div>"

/-- The markup assigned to `about-stats` (main.js:79-85). -/
def statsHTML (stats : List Stat) : String := String.join (stats.map statCardHTML)

/-- The preset WhatsApp message (main.js:114). -/
def whatsappPresetMessage : String :=
  "Hi Atilla, I saw your portfolio and I" ++ apos ++ "d like to connect!"

/-- The email contact button (main.js:105-110): the email is interpolated
into the `mailto:` URL as-is. -/
def emailButtonHTML (email : String) : String :=
  "<a href=\"mailto:" ++ email ++
    "?subject=Portfolio Inquiry\" class=\"contact-btn email\"><i class=\"fas fa-envelope\"></i><span>Email Me</span></a>"

/-- The WhatsApp contact button (main.js:113-120): the number is interpolated
as-is, the preset message percent-encoded. -/
def whatsappButtonHTML (whatsapp : String) : String :=
  "<a href=\"https://wa.me/" ++ whatsapp ++ "?text=" ++
    encodeURIComponent whatsappPresetMessage ++
    "\" target=\"_blank\" class=\"contact-btn whatsapp\"><i class=\"fab fa-whatsapp\"></i><span>WhatsApp</span></a>"

/-- The LinkedIn contact button (main.js:123-129). -/
def linkedinButtonHTML (url : String) : String :=
  "<a href=\"" ++ url ++
    "\" target=\"_blank\" class=\"contact-btn linkedin\"><i class=\"fab fa-linkedin-in\"></i><span>LinkedIn</span></a>"

/-- The GitHub contact button (main.js:132-138). -/
def githubButtonHTML (url : String) : String :=
  "<a href=\"" ++ url ++
    "\" target=\"_blank\" class=\"contact-btn github\"><i class=\"fab fa-github\"></i><span>GitHub</span></a>"

/-- `renderContactButtons` (main.js:99-142): one button per present social
field, in the fixed order email, whatsapp, linkedin, github. -/
def contactButtonsHTML (social : Social) : String :=
  String.join
    ((match social.email with | some e => [emailButtonHTML e] | none => []) ++
     (match social.whatsapp with | some w => [whatsappButtonHTML w] | none => []) ++
     (match social.linkedin with | some l => [linkedinButtonHTML l] | none => []) ++
     (match social.github with | some g => [githubButtonHTML g] | none => []))

/-- `renderFooterSocial` (main.js:144-163). -/
def footerSocialHTML (social : Social) : String :=
  String.join
    ((match social.email with
      | some e => ["<a href=\"mailto:" ++ e ++ "\" aria-label=\"Email\"><i class=\"fas fa-envelope\"></i></a>"]
      | none => []) ++
     (match social.linkedin with
      | some l => ["<a href=\"" ++ l ++ "\" target=\"_blank\" aria-label=\"LinkedIn\"><i class=\"fab fa-linkedin-in\"></i></a>"]
      | none => []) ++
     (match social.github with
      | some g => ["<a href=\"" ++ g ++ "\" target=\"_blank\" aria-label=\"GitHub\"><i class=\"fab fa-github\"></i></a>"]
      | none => []) ++
     (match social.instagram with
      | some i => ["<a href=\"" ++ i ++ "\" target=\"_blank\" aria-label=\"Instagram\"><i class=\"fab fa-instagram\"></i></a>"]
      | none => []))

/-- One skill row of `renderSkills` (main.js:177-187). -/
def skillItemHTML (skill : Skill) : String :=
  "<div class=\"skill-item\"><div class=\"skill-info\"><span class=\"skill-name\">" ++
    skill.name ++ "</span><span class=\"skill-level\">" ++ toString skill.level ++
    "%</span></div><div class=\"skill-bar\"><div class=\"skill-progress\" data-progress=\"" ++
    toString skill.level ++ "\" style=\"width: 0%\"></div></div></div>"

/-- One skill category card of `renderSkills` (main.js:168-189). -/
def skillCategoryHTML (category : SkillCategory) : String :=
  "<div class=\"skill-category reveal\"><div class=\"skill-category-header\"><div class=\"skill-category-icon\"><i class=\"fas fa-" ++
    category.icon ++ "\"></i></div><h3 class=\"skill-category-name\">" ++ category.name ++
    "</h3></div><div class=\"skill-list\">" ++
    String.join (category.skills.map skillItemHTML) ++ "</div></div>"

/-- The markup `renderSkills` assigns to `skills-grid` (main.js:165-191). -/
def skillsGridHTML (data : SkillsDoc) : String :=
  String.join (data.categories.map skillCategoryHTML)

/-- One timeline item of `renderExperience` (main.js:196-209). -/
def experienceItemHTML (exp : ExperienceEntry) : String :=
  "<div class=\"timeline-item reveal\"><div class=\"timeline-dot\"></div><div class=\"timeline-content\"><span class=\"timeline-period\">" ++
    exp.period ++ "</span><h3 class=\"timeline-role\">" ++ exp.role ++
    "</h3><p class=\"timeline-company\">" ++ exp.company ++
    "</p><p class=\"timeline-description\">" ++ exp.description ++
    "</p><ul class=\"timeline-highlights\">" ++
    String.join (exp.highlights.map fun h =>
      "<li class=\"timeline-highlight\">" ++ h ++ "</li>") ++
    "</ul></div></div>"

/-- The markup `renderExperience` assigns to `experience-timeline`. -/
def experienceTimelineHTML (data : ExperienceDoc) : String :=
  String.join (data.experiences.map experienceItemHTML)

/-- One tech tag (main.js:242 and main.js:486). -/
def techTagHTML (tech : String) : String :=
  "<span class=\"tech-tag\">" ++ tech ++ "</span>"

/-- The tech-tag list on a project card (main.js:241-243): only
`techStack.slice(0, 4)` is shown. -/
def cardTechHTML (p : Project) : String :=
  String.join ((p.techStack.take 4).map techTagHTML)

/-- The tech-tag list in the modal (main.js:486): the entire `techStack`. -/
def modalTechHTML (p : Project) : String :=
  String.join (p.techStack.map techTagHTML)

/-- One project card of `renderProjects` (main.js:228-247). -/
def projectCardHTML (p : Project) : String :=
  "<div class=\"project-card reveal\" data-category=\"" ++ p.category ++
    "\" data-id=\"" ++ p.id ++
    "\"><div class=\"project-image\"><img src=\"" ++ p.thumbnail ++
    "\" alt=\"" ++ p.title ++
    "\" onerror=\"this.src=" ++ apos ++
    "https://via.placeholder.com/400x200/1E3A5F/00D4FF?text=" ++
    encodeURIComponent p.title ++ apos ++
    "\"><div class=\"project-overlay\"><span class=\"project-view-btn\">View Details</span></div></div><div class=\"project-info\"><span class=\"project-category\">" ++
    p.category ++ "</span><h3 class=\"project-title\">" ++ p.title ++
    "</h3><p class=\"project-description\">" ++ p.shortDescription ++
    "</p><div class=\"project-tech\">" ++ cardTechHTML p ++ "</div></div></div>"

/-- The distinct category list `renderProjects` derives (main.js:217):
`[...new Set(data.projects.map(p => p.category))]`. -/
def filterCategories (data : ProjectsDoc) : List String :=
  jsSetDedup (data.projects.map fun p => p.category)

/-- One category filter button (main.js:223). -/
def filterButtonHTML (cat : String) : String :=
  "<button class=\"filter-btn\" data-filter=\"" ++ cat ++ "\">" ++ cat ++ "</button>"

/-- The synthetic All button (main.js:221). -/
def allButtonHTML : String :=
  "<button class=\"filter-btn active\" data-filter=\"all\">All</button>"

/-- The filter buttons as a list, in rendered order (main.js:220-225). -/
def filterButtonsList (data : ProjectsDoc) : List String :=
  allButtonHTML :: (filterCategories data).map filterButtonHTML

/-- The markup `renderProjects` assigns to `projects-filter`. -/
def filterButtonsHTML (data : ProjectsDoc) : String :=
  String.join (filterButtonsList data)

/-- The markup `renderProjects` assigns to `projects-grid`. -/
def projectsGridHTML (data : ProjectsDoc) : String :=
  String.join (data.projects.map projectCardHTML)

/-- One achievement/certification card of `renderAchievements`
(main.js:260-272); a missing icon falls back to `trophy`. -/
def achievementCardHTML (item : AchievementItem) : String :=
  "<div class=\"achievement-card reveal\"><div class=\"achievement-icon\"><i class=\"fas fa-" ++
    (match item.icon with | some i => i | none => "trophy") ++
    "\"></i></div><div class=\"achievement-content\"><h3 class=\"achievement-title\">" ++
    item.title ++ "</h3><p class=\"achievement-org\">" ++ item.organization ++
    "</p><p class=\"achievement-description\">" ++ item.description ++
    "</p><span class=\"achievement-year\">" ++ item.year ++ "</span></div></div>"

/-- The placeholder `renderAchievements` writes when there are no items
(main.js:256). -/
def achievementsPlaceholderHTML : String :=
  "<p style=\"text-align: center; color: var(--color-text-secondary);\">Achievements coming soon...</p>"

/-- The markup `renderAchievements` assigns to `achievements-grid`
(main.js:250-273): the concatenated achievements and certifications, or the
placeholder when both lists are empty. -/
def achievementsGridHTML (data : AchievementsDoc) : String :=
  let allItems := data.achievements ++ data.certifications
  if allItems.length = 0 then achievementsPlaceholderHTML
  else String.join (allItems.map achievementCardHTML)

/-! ## The DOM anchors and the renderers as state transformers

The code only ever assigns into a fixed set of identified anchors
(`innerHTML`, `textContent`, or attributes); `Page` records their contents.
Each renderer is a `Page → Page` function performing exactly the assignments
of its source counterpart. -/

structure Page where
  heroName : String
  heroTagline : String
  heroRoles : String
  heroAvatarSrc : String
  heroAvatarAlt : String
  aboutSummary : String
  aboutDescription : String
  aboutCta : String
  aboutStats : String
  navCvHref : String
  navCvDownload : String
  contactButtons : String
  footerSocial : String
  skillsGrid : String
  experienceTimeline : String
  projectsFilter : String
  projectsGrid : String
  achievementsGrid : String
deriving DecidableEq, Repr

/-- `renderProfile` (main.js:56-97): assigns the hero texts, the roles
markup, avatar attributes, about texts, stats markup, CV link, contact
buttons and footer social links. -/
def renderProfile (data : Profile) (page : Page) : Page :=
  { page with
    heroName := data.name
    heroTagline := data.tagline
    heroRoles := rolesHTML data.roles
    heroAvatarSrc := data.avatar
    heroAvatarAlt := data.name
    aboutSummary := data.about.summary
    aboutDescription := data.about.description
    aboutCta := data.about.cta
    aboutStats := statsHTML data.stats
    navCvHref := data.cv
    navCvDownload := "CV_Atilla_Pramudya_Nugroho.pdf"
    contactButtons := contactButtonsHTML data.social
    footerSocial := footerSocialHTML data.social }

/-- `renderSkills` (main.js:165-191). -/
def renderSkills (data : SkillsDoc) (page : Page) : Page :=
  { page with skillsGrid := skillsGridHTML data }

/-- `renderExperience` (main.js:193-210). -/
def renderExperience (data : ExperienceDoc) (page : Page) : Page :=
  { page with experienceTimeline := experienceTimelineHTML data }

/-- `renderProjects` (main.js:212-248): writes the filter buttons and the
project cards. -/
def renderProjects (data : ProjectsDoc) (page : Page) : Page :=
  { page with
    projectsFilter := filterButtonsHTML data
    projectsGrid := projectsGridHTML data }

/-- `renderAchievements` (main.js:250-273). -/
def renderAchievements (data : AchievementsDoc) (page : Page) : Page :=
  { page with achievementsGrid := achievementsGridHTML data }

/-! ## Data loader -/

/-- Outcome of `fetch(path)`: the promise rejects (network error), or a
response arrives carrying its `ok` flag and body. -/
inductive FetchOutcome where
  | netError (msg : String)
  | response (ok : Bool) (body : String)
deriving DecidableEq, Repr

/-- `loadJSON` (main.js:10-19): `fetch` the path, throw on a non-ok status,
parse the body; any failure along the way is caught, logged via
`console.error`, and turned into `null` (`none`).  The result pairs the
value returned to the caller with the console-error log, and is total: no
outcome makes the loader itself throw. -/
def loadJSON (parse : String → Except String α) :
    FetchOutcome → Option α × List String
  | .netError msg => (none, ["Error loading: " ++ msg])
  | .response ok body =>
    if ok then
      match parse body with
      | .ok v => (some v, [])
      | .error msg => (none, ["Error loading: " ++ msg])
    else (none, ["Error loading: Failed to load"])

/-- The render phase of the `DOMContentLoaded` handler (main.js:36-40): each
document that loaded renders into its section; an absent (`none`) document
leaves its section untouched. -/
def runStartup (profile : Option Profile) (skills : Option SkillsDoc)
    (experience : Option ExperienceDoc) (projects : Option ProjectsDoc)
    (achievements : Option AchievementsDoc) (page : Page) : Page :=
  let page := match profile with | some d => renderProfile d page | none => page
  let page := match skills with | some d => renderSkills d page | none => page
  let page := match experience with | some d => renderExperience d page | none => page
  let page := match projects with | some d => renderProjects d page | none => page
  let page := match achievements with | some d => renderAchievements d page | none => page
  page

/-! ## Navigation scroll-spy -/

/-- A page section with an `id`, as seen by the scroll-spy. -/
structure PageSection where
  id : String
  offsetTop : Int
  offsetHeight : Int
deriving DecidableEq, Repr

/-- A navigation link: its `href` attribute and whether it currently bears
the `active` class. -/
structure NavLink where
  href : String
  active : Bool
deriving DecidableEq, Repr

/-- `updateActiveNav` (main.js:302-319): for each section whose band
`[offsetTop - 100, offsetTop - 100 + offsetHeight)` contains `scrollY`, every
link loses `active` and the link whose `href` is `#` + the section id gains
it; sections that do not contain `scrollY` leave the links unchanged. -/
def updateActiveNav (scrollY : Int) (sections : List PageSection)
    (links : List NavLink) : List NavLink :=
  sections.foldl
    (fun ls s =>
      let sectionTop := s.offsetTop - 100
      if sectionTop ≤ scrollY ∧ scrollY < sectionTop + s.offsetHeight then
        ls.map fun l => { l with active := l.href == "#" ++ s.id }
      else ls)
    links

/-- The number of links currently bearing the active marker. -/
def activeCount (links : List NavLink) : Nat :=
  (links.filter fun l => l.active).length

/-! ## Modal controller -/

/-- Observable modal state: the `active` class on `#project-modal` and the
`overflow` style on `document.body`. -/
structure ModalState where
  active : Bool
  bodyOverflow : String
  modalBody : String
deriving DecidableEq, Repr

/-- The state before any interaction: modal closed, body scrollable. -/
def initialModalState : ModalState :=
  { active := false, bodyOverflow := "", modalBody := "" }

/-- The GitHub link of the modal links block (main.js:492-496): the link URL
is interpolated as-is. -/
def modalGithubLinkHTML (url : String) : String :=
  "<a href=\"" ++ url ++
    "\" target=\"_blank\" class=\"modal-link\"><i class=\"fab fa-github\"></i> GitHub</a>"

/-- The Live Demo link of the modal links block (main.js:497-501): the link
URL is interpolated as-is. -/
def modalDemoLinkHTML (url : String) : String :=
  "<a href=\"" ++ url ++
    "\" target=\"_blank\" class=\"modal-link\"><i class=\"fas fa-external-link-alt\"></i> Live Demo</a>"

/-- The modal body markup built by `openModal` (main.js:469-505). -/
def modalBodyHTML (p : Project) : String :=
  "<img src=\"" ++
    (match p.images with
     | [] => p.thumbnail
     | img :: _ => if img == "" then p.thumbnail else img) ++
    "\" alt=\"" ++ p.title ++ "\" class=\"modal-image\" onerror=\"this.src=" ++
    apos ++ "https://via.placeholder.com/800x300/1E3A5F/00D4FF?text=" ++
    encodeURIComponent p.title ++ apos ++
    "\"><div class=\"modal-info\"><span class=\"modal-category\">" ++
    p.category ++ " • " ++ p.year ++ "</span><h2 class=\"modal-title\">" ++
    p.title ++ "</h2><p class=\"modal-description\">" ++ p.description ++
    "</p><div class=\"modal-highlights\"><h4>Key Highlights</h4><ul>" ++
    String.join (p.highlights.map fun h => "<li>" ++ h ++ "</li>") ++
    "</ul></div><div class=\"modal-tech\"><h4>Tech Stack</h4><div class=\"modal-tech-list\">" ++
    modalTechHTML p ++ "</div></div>" ++
    (if p.links.github.isSome || p.links.demo.isSome then
      "<div class=\"modal-links\">" ++
        (match p.links.github with
         | some g => modalGithubLinkHTML g
         | none => "") ++
        (match p.links.demo with
         | some d => modalDemoLinkHTML d
         | none => "") ++ "</div>"
     else "") ++ "</div>"

/-- `openModal` (main.js:465-509): fill the modal body, add the `active`
class, set `body.style.overflow = "hidden"`. -/
def openModal (p : Project) (_s : ModalState) : ModalState :=
  { active := true, bodyOverflow := "hidden", modalBody := modalBodyHTML p }

/-- `closeModal` (main.js:511-515): remove the `active` class and restore
`body.style.overflow` to the empty string.  The modal body is not cleared. -/
def closeModal (s : ModalState) : ModalState :=
  { s with active := false, bodyOverflow := "" }

/-- The user events the modal listeners of `initModal` (main.js:431-463)
react to.  A card click carries the projects document loaded so far (`none`
while the modal fetch has not resolved) and the clicked card id. -/
inductive ModalEvent where
  | cardClick (projectsData : Option ProjectsDoc) (cardId : String)
  | closeClick
  | overlayClick
  | escapeKey
deriving DecidableEq, Repr

/-- One step of the modal controller: the dispatch performed by the event
listeners of `initModal`.  A card click opens the modal only when the
projects document is loaded and contains a project with the card id; close
and overlay clicks always close; Escape closes only while the modal bears
the `active` class. -/
def modalStep (s : ModalState) : ModalEvent → ModalState
  | .cardClick projectsData cardId =>
    match projectsData with
    | none => s
    | some data =>
      match data.projects.find? (fun p => p.id == cardId) with
      | some p => openModal p s
      | none => s
  | .closeClick => closeModal s
  | .overlayClick => closeModal s
  | .escapeKey => if s.active then closeModal s else s

/-- Running a sequence of modal events from a state. -/
def modalRun (s : ModalState) (events : List ModalEvent) : ModalState :=
  events.foldl modalStep s

/-! ## Helper lemmas about the markup-interpretation model -/

theorem stripTagsAux_append (b : Bool) (l r : List Char) :
    stripTagsAux b (l ++ r) =
      stripTagsAux b l ++ stripTagsAux (tagStateAfter b l) r := by
  induction l generalizing b with
  | nil => simp [stripTagsAux, tagStateAfter]
  | cons c l ih =>
    cases b with
    | false =>
      by_cases hc : c = '<' <;>
        simp [stripTagsAux, tagStateAfter, hc, ih]
    | true =>
      by_cases hc : c = '>' <;>
        simp [stripTagsAux, tagStateAfter, hc, ih]

theorem stripTagsAux_false_of_clean (l : List Char) (h : '<' ∉ l) :
    stripTagsAux false l = l := by
  induction l with
  | nil => rfl
  | cons c l ih =>
    have hc : ¬ c = '<' := by intro e; exact h (by simp [e])
    simp [stripTagsAux, hc, ih fun hm => h (List.mem_cons_of_mem _ hm)]

theorem tagStateAfter_false_of_clean (l : List Char) (h : '<' ∉ l) :
    tagStateAfter false l = false := by
  induction l with
  | nil => rfl
  | cons c l ih =>
    have hc : ¬ c = '<' := by intro e; exact h (by simp [e])
    simp [tagStateAfter, hc, ih fun hm => h (List.mem_cons_of_mem _ hm)]

/-- Text content of a pure-tags string, a markup-free string and a
pure-tags string glued together is exactly the markup-free string. -/
theorem textContent_wrap (pre post s : String)
    (hpre1 : stripTagsAux false pre.toList = [])
    (hpre2 : tagStateAfter false pre.toList = false)
    (hpost : stripTagsAux false post.toList = [])
    (hs : '<' ∉ s.toList) :
    textContent (pre ++ s ++ post) = s := by
  have h1 : (pre ++ s ++ post).toList = pre.toList ++ (s.toList ++ post.toList) := by
    simp [String.toList, String.data_append]
  unfold textContent
  rw [h1, stripTagsAux_append, hpre1, hpre2, stripTagsAux_append,
    stripTagsAux_false_of_clean _ hs, tagStateAfter_false_of_clean _ hs, hpost]
  simp [String.toList]

theorem subList_of_isInfix {p s : List Char} (h : p <:+: s) :
    subList p s = true := by
  induction s with
  | nil =>
    rcases h with ⟨pre, post, he⟩
    have : p = [] := by
      exact (List.append_eq_nil.mp (List.append_eq_nil.mp he).1).2
    simp [subList, this]
  | cons c s ih =>
    rcases List.infix_cons_iff.mp h with hp | hi
    · simp [subList, List.isPrefixOf_iff_prefix, hp]
    · simp [subList, ih hi]

/-- A string built as `pre ++ mid ++ post` contains `mid`. -/
theorem strContains_parts (pre mid post : String) :
    strContains (pre ++ mid ++ post) mid = true := by
  unfold strContains
  exact subList_of_isInfix
    ⟨pre.toList, post.toList, by simp [String.toList, String.data_append]⟩

theorem subList_complete {p s : List Char} (h : subList p s = true) :
    p <:+: s := by
  induction s with
  | nil =>
    have hp : p = [] := by simpa [subList] using h
    simp [hp]
  | cons c s ih =>
    simp only [subList, Bool.or_eq_true] at h
    rcases h with hp | hs
    · rcases List.isPrefixOf_iff_prefix.mp hp with ⟨t, ht⟩
      exact ⟨[], t, by simpa using ht⟩
    · rcases ih hs with ⟨pre, post, he⟩
      exact ⟨c :: pre, post, by simp [he]⟩

/-- Containment is preserved when markup is prepended. -/
theorem strContains_append_left (s t pat : String)
    (h : strContains t pat = true) : strContains (s ++ t) pat = true := by
  rcases subList_complete h with ⟨pre, post, he⟩
  refine subList_of_isInfix ⟨s.toList ++ pre, post, ?_⟩
  simp only [String.toList, String.data_append, List.append_assoc]
  simp only [String.toList] at he
  rw [← he]
  simp [List.append_assoc]

/-- Containment is preserved when markup is appended. -/
theorem strContains_append_right (s u pat : String)
    (h : strContains s pat = true) : strContains (s ++ u) pat = true := by
  rcases subList_complete h with ⟨pre, post, he⟩
  refine subList_of_isInfix ⟨pre, post ++ u.toList, ?_⟩
  simp only [String.toList, String.data_append]
  simp only [String.toList] at he
  rw [← he]
  simp [List.append_assoc]

/-! ## Helper lemmas about the distinct-category derivation -/

theorem foldlDedup_eq (l acc : List String) :
    l.foldl (fun acc c => if c ∈ acc then acc else acc ++ [c]) acc =
      acc ++ firstSeenSpec (l.filter fun c => c ∉ acc) := by
  induction l generalizing acc with
  | nil => simp [firstSeenSpec]
  | cons a l ih =>
    simp only [List.foldl_cons, List.filter_cons]
    by_cases ha : a ∈ acc
    · rw [if_pos ha]
      have hd : decide (a ∉ acc) = false := by simp [ha]
      rw [hd]
      simpa using ih acc
    · rw [if_neg ha]
      have hd : decide (a ∉ acc) = true := by simp [ha]
      rw [hd]
      simp only [if_pos]
      rw [ih (acc ++ [a]), firstSeenSpec, List.append_assoc]
      simp only [List.singleton_append]
      congr 2
      rw [List.filter_filter]
      congr 1
      apply List.filter_congr
      intro x _
      by_cases hx : x ∈ acc <;> by_cases hxa : x = a <;>
        simp [hx, hxa]

theorem jsSetDedup_eq_firstSeenSpec (l : List String) :
    jsSetDedup l = firstSeenSpec l := by
  have h := foldlDedup_eq l []
  simpa [jsSetDedup] using h

theorem firstSeenSpec_sublist (l : List String) :
    (firstSeenSpec l).Sublist l := by
  induction l using firstSeenSpec.induct with
  | case1 => simp [firstSeenSpec]
  | case2 a rest ih =>
    rw [firstSeenSpec]
    exact List.Sublist.cons₂ a (ih.trans (List.filter_sublist rest))

theorem firstSeenSpec_nodup (l : List String) :
    (firstSeenSpec l).Nodup := by
  induction l using firstSeenSpec.induct with
  | case1 => simp [firstSeenSpec]
  | case2 a rest ih =>
    rw [firstSeenSpec]
    refine List.nodup_cons.mpr ⟨?_, ih⟩
    intro hmem
    have := (firstSeenSpec_sublist _).subset hmem
    simp at this

/-! ## Helper lemmas about the scroll-spy -/

theorem countP_beq_le_one (t : String) (hs : List String) (h : hs.Nodup) :
    hs.countP (fun x => x == t) ≤ 1 := by
  induction hs with
  | nil => simp
  | cons c hs ih =>
    rw [List.countP_cons]
    rcases List.nodup_cons.mp h with ⟨hc, hn⟩
    by_cases he : c = t
    · have h0 : hs.countP (fun x => x == t) = 0 := by
        apply List.countP_eq_zero.mpr
        intro a ha hb
        exact hc (by rwa [he, ← (by simpa using hb : a = t)])
      simp [h0, he]
    · have : (fun x => x == t) c = false := by simp [he]
      simp only [this]
      simpa using ih hn

theorem activeCount_mark_le_one (t : String) (links : List NavLink)
    (hnd : (links.map fun l => l.href).Nodup) :
    activeCount (links.map fun l => { l with active := l.href == t }) ≤ 1 := by
  unfold activeCount
  rw [List.filter_map, List.length_map]
  have h1 : (links.filter
      (((fun l => l.active)) ∘ fun l => { l with active := l.href == t })).length =
      links.countP (fun l => l.href == t) := by
    rw [List.countP_eq_length_filter]
    rfl
  rw [h1]
  have h2 : links.countP (fun l => l.href == t) =
      (links.map fun l => l.href).countP (fun x => x == t) := by
    rw [List.countP_map]
    rfl
  rw [h2]
  exact countP_beq_le_one t _ hnd

theorem updateActiveNav_hrefs (y : Int) (ss : List PageSection)
    (links : List NavLink) :
    ((updateActiveNav y ss links).map fun l => l.href) =
      links.map fun l => l.href := by
  unfold updateActiveNav
  induction ss generalizing links with
  | nil => rfl
  | cons s ss ih =>
    simp only [List.foldl_cons]
    by_cases hc : s.offsetTop - 100 ≤ y ∧ y < s.offsetTop - 100 + s.offsetHeight
    · rw [if_pos hc, ih, List.map_map]
      rfl
    · rw [if_neg hc]
      exact ih links

/-! ## Helper lemmas about the modal controller -/

/-- The scroll-lock invariant: background scrolling is disabled (body
overflow `hidden`) exactly when the modal bears the `active` class. -/
def scrollLockInv (s : ModalState) : Prop :=
  s.bodyOverflow = "hidden" ↔ s.active = true

theorem scrollLockInv_step {s : ModalState} (h : scrollLockInv s)
    (e : ModalEvent) : scrollLockInv (modalStep s e) := by
  cases e with
  | cardClick pd cid =>
    cases pd with
    | none => exact h
    | some data =>
      cases hf : data.projects.find? fun p => p.id == cid with
      | none => simpa [modalStep, hf] using h
      | some p =>
        simp only [modalStep, hf]
        exact iff_of_true rfl rfl
  | closeClick => exact iff_of_false (by simp [modalStep, closeModal]) (by simp [modalStep, closeModal])
  | overlayClick => exact iff_of_false (by simp [modalStep, closeModal]) (by simp [modalStep, closeModal])
  | escapeKey =>
    by_cases ha : s.active
    · simp only [modalStep, ha, if_pos]
      exact iff_of_false (by simp [closeModal]) (by simp [closeModal])
    · simpa [modalStep, ha] using h

theorem modalRun_inv (events : List ModalEvent) {s : ModalState}
    (h : scrollLockInv s) : scrollLockInv (modalRun s events) := by
  induction events generalizing s with
  | nil => exact h
  | cons e events ih => exact ih (scrollLockInv_step h e)

/-! ## Sample documents for concrete instances -/

/-- A page whose anchors all hold the empty static shell content. -/
def samplePage : Page :=
  { heroName := "", heroTagline := "", heroRoles := "", heroAvatarSrc := "",
    heroAvatarAlt := "", aboutSummary := "", aboutDescription := "",
    aboutCta := "", aboutStats := "", navCvHref := "", navCvDownload := "",
    contactButtons := "", footerSocial := "", skillsGrid := "",
    experienceTimeline := "", projectsFilter := "", projectsGrid := "",
    achievementsGrid := "" }

def sampleProfile : Profile :=
  { name := "Ada", tagline := "builder", roles := ["Developer"],
    avatar := "avatar.png",
    about := { summary := "s", description := "d", cta := "c" },
    stats := [], cv := "cv.pdf",
    social := { email := none, whatsapp := none, linkedin := none,
                github := none, instagram := none } }

/-- A minimal project with the given id and category. -/
def sampleProject (pid cat : String) : Project :=
  { id := pid, category := cat, title := "T", shortDescription := "sd",
    description := "ds", thumbnail := "t.png", images := [], techStack := [],
    highlights := [], year := "2024", links := ⟨none, none⟩ }

/-- Three projects whose categories are Web, Mobile, Web. -/
def sampleProjectsDoc : ProjectsDoc :=
  ⟨[sampleProject "p1" "Web", sampleProject "p2" "Mobile",
    sampleProject "p3" "Web"]⟩

/-- Splitting a two-literal concatenation around a variable into a
three-part concatenation whose outer literals merge accordingly. -/
theorem strSplit (A B pre m q post e : String) (h1 : pre ++ m = A)
    (h2 : q ++ post = B) :
    A ++ e ++ B = pre ++ (m ++ e ++ q) ++ post := by
  subst h1 h2
  simp only [String.append_assoc]

/-- Variant of `strSplit` whose middle part ends at the variable. -/
theorem strSplit2 (A B pre m e : String) (h1 : pre ++ m = A) :
    A ++ e ++ B = pre ++ (m ++ e) ++ B := by
  subst h1
  simp only [String.append_assoc]

/-! ## Claim theorems -/

theorem filterButtonHTML_injective {a b : String}
    (h : filterButtonHTML a = filterButtonHTML b) : a = b := by
  have hlen : a.length = b.length := by
    have h1 := congrArg String.length h
    simp only [filterButtonHTML, String.length_append] at h1
    omega
  have hd := congrArg String.data h
  simp only [filterButtonHTML, String.data_append, List.append_assoc] at hd
  exact String.ext (List.append_inj (List.append_cancel_left hd) hlen).1

theorem allButton_ne_filterButton (cat : String) :
    allButtonHTML ≠ filterButtonHTML cat := by
  intro h
  have hd : allButtonHTML.data.take 26 = (filterButtonHTML cat).data.take 26 := by
    rw [h]
  simp only [filterButtonHTML, String.data_append, List.append_assoc] at hd
  rw [List.take_append_of_le_length (by decide)] at hd
  exact absurd hd (by decide)

/-- C3: for every Projects document the rendered filter button list is the
synthetic All button followed by one button per distinct project category in
first-seen order, with no duplicate buttons; in particular for categories
Web, Mobile, Web the buttons are exactly All, Web, Mobile in that order. -/
theorem filter_buttons_all_then_first_seen_distinct (data : ProjectsDoc) :
    filterButtonsList data =
      allButtonHTML ::
        (firstSeenSpec (data.projects.map fun p => p.category)).map
          filterButtonHTML ∧
    (filterCategories data).Nodup ∧
    (filterButtonsList data).Nodup ∧
    filterCategories sampleProjectsDoc = ["Web", "Mobile"] ∧
    filterButtonsList sampleProjectsDoc =
      [allButtonHTML, filterButtonHTML "Web", filterButtonHTML "Mobile"] := by
  have hcats : (filterCategories data).Nodup := by
    unfold filterCategories
    rw [jsSetDedup_eq_firstSeenSpec]
    exact firstSeenSpec_nodup _
  refine ⟨?_, hcats, ?_, by decide, by decide⟩
  · unfold filterButtonsList filterCategories
    rw [jsSetDedup_eq_firstSeenSpec]
  · unfold filterButtonsList
    refine List.nodup_cons.mpr ⟨?_, ?_⟩
    · intro hmem
      rcases List.mem_map.mp hmem with ⟨cat, _, hce⟩
      exact allButton_ne_filterButton cat hce.symm
    · exact hcats.map fun a b h => filterButtonHTML_injective h

/-- C4: every renderer is idempotent — rendering the same document twice
leaves every anchor exactly as a single render does, because each renderer
replaces its anchor content by assignment rather than accumulating. -/
theorem renderers_idempotent (pr : Profile) (sk : SkillsDoc)
    (ex : ExperienceDoc) (pj : ProjectsDoc) (ac : AchievementsDoc)
    (page : Page) :
    renderProfile pr (renderProfile pr page) = renderProfile pr page ∧
    renderSkills sk (renderSkills sk page) = renderSkills sk page ∧
    renderExperience ex (renderExperience ex page) = renderExperience ex page ∧
    renderProjects pj (renderProjects pj page) = renderProjects pj page ∧
    renderAchievements ac (renderAchievements ac page) =
      renderAchievements ac page :=
  ⟨rfl, rfl, rfl, rfl, rfl⟩

/-- C6: while the projects document of the modal controller has not loaded
(is absent), a project-card click is a no-op: the state after the click — the
modal class, body overflow and modal body — is exactly the state before. -/
theorem card_click_noop_when_projects_absent (s : ModalState) (cid : String) :
    modalStep s (.cardClick none cid) = s := rfl

/-- C7: the modal controller keeps background scrolling disabled exactly
when the modal is open: opening on a card click sets the body overflow to
hidden, all three closing transitions (close control, overlay click, Escape
while open) close the modal and restore scrolling, and along every event
sequence from the initial closed state the scroll lock holds iff the modal
is open. -/
theorem modal_scroll_lock_invariant :
    (∀ (p : Project) (s : ModalState),
      (openModal p s).active = true ∧ (openModal p s).bodyOverflow = "hidden") ∧
    (∀ (s : ModalState) (d : ProjectsDoc) (cid : String),
      modalStep s (.cardClick (some d) cid) =
        match d.projects.find? fun p => p.id == cid with
        | some p => openModal p s
        | none => s) ∧
    (∀ s : ModalState,
      modalStep s .closeClick = closeModal s ∧
      modalStep s .overlayClick = closeModal s ∧
      modalStep s .escapeKey = (if s.active then closeModal s else s) ∧
      (closeModal s).active = false ∧ (closeModal s).bodyOverflow = "") ∧
    (∀ events : List ModalEvent,
      (modalRun initialModalState events).bodyOverflow = "hidden" ↔
        (modalRun initialModalState events).active = true) :=
  ⟨fun _ _ => ⟨rfl, rfl⟩,
   fun _ _ _ => rfl,
   fun _ => ⟨rfl, rfl, rfl, rfl, rfl⟩,
   fun events => modalRun_inv events
     (iff_of_false (by decide) (by decide))⟩

/-- C9: a project card displays at most the first four tech-stack tags, in
order (the card tag list is the four-element-truncated modal tag list),
while the modal displays a tag for the entire tech stack. -/
theorem card_tech_first_four_modal_full (p : Project) :
    cardTechHTML p = String.join ((p.techStack.map techTagHTML).take 4) ∧
    (p.techStack.take 4).length ≤ 4 ∧
    p.techStack.take 4 <+: p.techStack ∧
    modalTechHTML p = String.join (p.techStack.map techTagHTML) ∧
    (p.techStack.map techTagHTML).length = p.techStack.length := by
  refine ⟨?_, ?_, ⟨p.techStack.drop 4, List.take_append_drop 4 _⟩, rfl,
    List.length_map _ _⟩
  · unfold cardTechHTML
    rw [List.map_take]
  · rw [List.length_take]
    omega

/-- C10: when both the achievements and the certifications lists are empty,
renderAchievements writes the fixed placeholder message into its container
and renders no achievement card. -/
theorem achievements_placeholder_when_empty (data : AchievementsDoc)
    (h1 : data.achievements = []) (h2 : data.certifications = []) :
    achievementsGridHTML data = achievementsPlaceholderHTML ∧
    strContains (achievementsGridHTML data) "achievement-card" = false := by
  have he : achievementsGridHTML data = achievementsPlaceholderHTML := by
    unfold achievementsGridHTML
    rw [h1, h2]
    rfl
  exact ⟨he, by rw [he]; decide⟩

/-- C10 witness: the empty achievements document satisfies the hypotheses and
yields the placeholder. -/
theorem achievements_placeholder_when_empty_witness :
    (⟨[], []⟩ : AchievementsDoc).achievements = [] ∧
    (⟨[], []⟩ : AchievementsDoc).certifications = [] ∧
    achievementsGridHTML ⟨[], []⟩ = achievementsPlaceholderHTML ∧
    strContains (achievementsGridHTML ⟨[], []⟩) "achievement-card" = false :=
  ⟨rfl, rfl, (achievements_placeholder_when_empty ⟨[], []⟩ rfl rfl).1,
    (achievements_placeholder_when_empty ⟨[], []⟩ rfl rfl).2⟩

/-- C1 counterexample: the role field value containing HTML metacharacters
is not inserted as literal text — for the role "<b>hi</b>" the hero-roles
markup produced by renderProfile has browser-interpreted text content "hi":
part of the value is parsed as markup and the rendered output does not
contain the value character for character. -/
theorem roles_field_not_literal_text :
    textContent
        ((renderProfile { sampleProfile with roles := ["<b>hi</b>"] }
          samplePage).heroRoles) = "hi" ∧
    strContains
        (textContent
          ((renderProfile { sampleProfile with roles := ["<b>hi</b>"] }
            samplePage).heroRoles)) "<b>hi</b>" = false :=
  ⟨by decide, by decide⟩

/-- C1 (amended): fields assigned via textContent (name, tagline, about
texts) are always inserted literally, while fields interpolated into
innerHTML markup (role tags, timeline highlights, tech tags) are inserted
without escaping, so such a value appears as literal text exactly when it
contains no markup metacharacter: whenever the value is free of the
character <, the interpreted text content of its surrounding fragment is the
value itself. -/
theorem text_fields_literal_classified (data : Profile) (page : Page) :
    (renderProfile data page).heroName = data.name ∧
    (renderProfile data page).heroTagline = data.tagline ∧
    (renderProfile data page).aboutSummary = data.about.summary ∧
    (renderProfile data page).aboutDescription = data.about.description ∧
    (renderProfile data page).aboutCta = data.about.cta ∧
    (∀ role : String, '<' ∉ role.toList →
      textContent (roleTagHTML role) = role) ∧
    (∀ h : String, '<' ∉ h.toList →
      textContent ("<li class=\"timeline-highlight\">" ++ h ++ "</li>") = h) ∧
    (∀ tech : String, '<' ∉ tech.toList →
      textContent (techTagHTML tech) = tech) := by
  refine ⟨rfl, rfl, rfl, rfl, rfl, ?_, ?_, ?_⟩
  · intro role hr
    exact textContent_wrap _ _ _ (by decide) (by decide) (by decide) hr
  · intro h hh
    exact textContent_wrap _ _ _ (by decide) (by decide) (by decide) hh
  · intro tech ht
    exact textContent_wrap _ _ _ (by decide) (by decide) (by decide) ht

/-- C1 witness: a markup-free role value renders literally. -/
theorem text_fields_literal_classified_witness :
    '<' ∉ ("Developer" : String).toList ∧
    textContent (roleTagHTML "Developer") = "Developer" :=
  ⟨by decide,
    (text_fields_literal_classified sampleProfile samplePage).2.2.2.2.2.1
      "Developer" (by decide)⟩

/-- C5 counterexample: the user-supplied text components of the constructed
URLs are not percent-encoded — for the email "a b@x.com" the contact-buttons
markup contains the verbatim "mailto:a b@x.com" and not the percent-encoded
"mailto:a%20b%40x.com", and for the WhatsApp number "+62 812" it contains
the verbatim "https://wa.me/+62 812" and not the percent-encoded
"https://wa.me/%2B62%20812". -/
theorem email_url_not_percent_encoded :
    encodeURIComponent "a b@x.com" = "a%20b%40x.com" ∧
    strContains
        (contactButtonsHTML
          { email := some "a b@x.com", whatsapp := none, linkedin := none,
            github := none, instagram := none })
        ("mailto:" ++ encodeURIComponent "a b@x.com") = false ∧
    strContains
        (contactButtonsHTML
          { email := some "a b@x.com", whatsapp := none, linkedin := none,
            github := none, instagram := none })
        "mailto:a b@x.com" = true ∧
    encodeURIComponent "+62 812" = "%2B62%20812" ∧
    strContains
        (contactButtonsHTML
          { email := none, whatsapp := some "+62 812", linkedin := none,
            github := none, instagram := none })
        ("https://wa.me/" ++ encodeURIComponent "+62 812") = false ∧
    strContains
        (contactButtonsHTML
          { email := none, whatsapp := some "+62 812", linkedin := none,
            github := none, instagram := none })
        "https://wa.me/+62 812?text=" = true :=
  ⟨by decide, by decide, by decide, by decide, by decide, by decide⟩

/-- C5 (amended): the URL-constructing renderers embed user-supplied text
components verbatim rather than percent-encoding them: the contact and
footer mailto hrefs contain the email as-is, the WhatsApp href contains the
number as-is with only the constant preset message percent-encoded, the
external profile-link hrefs contain the supplied URLs as-is, and the project
links of the modal body contain the supplied URLs as-is. -/
theorem url_fields_embedded_verbatim (e w u v : String) :
    strContains (emailButtonHTML e)
      ("mailto:" ++ e ++ "?subject=Portfolio Inquiry") = true ∧
    strContains (whatsappButtonHTML w)
      ("https://wa.me/" ++ w ++ "?text=" ++
        encodeURIComponent whatsappPresetMessage) = true ∧
    strContains (linkedinButtonHTML u) ("href=\"" ++ u ++ "\"") = true ∧
    strContains (githubButtonHTML v) ("href=\"" ++ v ++ "\"") = true ∧
    strContains
      (footerSocialHTML
        { email := some e, whatsapp := none, linkedin := none,
          github := none, instagram := none }) ("mailto:" ++ e) = true ∧
    (∀ (p : Project) (g : String),
      strContains (modalBodyHTML { p with links := ⟨some g, none⟩ })
        ("href=\"" ++ g ++ "\"") = true) ∧
    (∀ (p : Project) (d : String),
      strContains (modalBodyHTML { p with links := ⟨none, some d⟩ })
        ("href=\"" ++ d ++ "\"") = true) := by
  have hgh : ∀ g : String,
      strContains (modalGithubLinkHTML g) ("href=\"" ++ g ++ "\"") = true := by
    intro g
    have key : modalGithubLinkHTML g =
        "<a " ++ ("href=\"" ++ g ++ "\"") ++
          " target=\"_blank\" class=\"modal-link\"><i class=\"fab fa-github\"></i> GitHub</a>" :=
      strSplit _ _ _ _ _ _ g rfl rfl
    rw [key]
    exact strContains_parts _ _ _
  have hdm : ∀ d : String,
      strContains (modalDemoLinkHTML d) ("href=\"" ++ d ++ "\"") = true := by
    intro d
    have key : modalDemoLinkHTML d =
        "<a " ++ ("href=\"" ++ d ++ "\"") ++
          " target=\"_blank\" class=\"modal-link\"><i class=\"fas fa-external-link-alt\"></i> Live Demo</a>" :=
      strSplit _ _ _ _ _ _ d rfl rfl
    rw [key]
    exact strContains_parts _ _ _
  refine ⟨?_, ?_, ?_, ?_, ?_, ?_, ?_⟩
  · have key : emailButtonHTML e =
        "<a href=\"" ++ ("mailto:" ++ e ++ "?subject=Portfolio Inquiry") ++
          "\" class=\"contact-btn email\"><i class=\"fas fa-envelope\"></i><span>Email Me</span></a>" :=
      strSplit _ _ _ _ _ _ e rfl rfl
    rw [key]
    exact strContains_parts _ _ _
  · have key : whatsappButtonHTML w =
        "<a href=\"" ++
          ("https://wa.me/" ++ w ++ "?text=" ++
            encodeURIComponent whatsappPresetMessage) ++
          ("\" target=\"_blank\" class=\"contact-btn whatsapp\"><i class=\"fab fa-whatsapp\"></i><span>WhatsApp</span></a>") := by
      unfold whatsappButtonHTML
      simp only [String.append_assoc]
      conv_rhs => rw [← String.append_assoc]
      rfl
    rw [key]
    exact strContains_parts _ _ _
  · have key : linkedinButtonHTML u =
        "<a " ++ ("href=\"" ++ u ++ "\"") ++
          " target=\"_blank\" class=\"contact-btn linkedin\"><i class=\"fab fa-linkedin-in\"></i><span>LinkedIn</span></a>" :=
      strSplit _ _ _ _ _ _ u rfl rfl
    rw [key]
    exact strContains_parts _ _ _
  · have key : githubButtonHTML v =
        "<a " ++ ("href=\"" ++ v ++ "\"") ++
          " target=\"_blank\" class=\"contact-btn github\"><i class=\"fab fa-github\"></i><span>GitHub</span></a>" :=
      strSplit _ _ _ _ _ _ v rfl rfl
    rw [key]
    exact strContains_parts _ _ _
  · have key : footerSocialHTML
        { email := some e, whatsapp := none, linkedin := none,
          github := none, instagram := none } =
        "<a href=\"" ++ ("mailto:" ++ e) ++
          "\" aria-label=\"Email\"><i class=\"fas fa-envelope\"></i></a>" :=
      strSplit2 _ _ _ _ e rfl
    rw [key]
    exact strContains_parts _ _ _
  · intro p g
    exact strContains_append_right _ _ _
      (strContains_append_left _ _ _
        (strContains_append_right _ _ _
          (strContains_append_right _ _ _
            (strContains_append_left _ _ _ (hgh g)))))
  · intro p d
    exact strContains_append_right _ _ _
      (strContains_append_left _ _ _
        (strContains_append_right _ _ _
          (strContains_append_left _ _ _ (hdm d))))

/-- C2: the data loader is total and never throws — a network error, a
non-ok response and a malformed body each yield an absent (none) result
together with a console log, and a result is absent exactly when a failure
was logged; and for every combination of present and absent startup
documents, each absent document leaves its section containers exactly as
they were while each present document renders its section markup in full. -/
theorem loader_total_and_sections_independent :
    (∀ (α : Type) (parse : String → Except String α) (msg : String),
      loadJSON parse (.netError msg) = (none, ["Error loading: " ++ msg])) ∧
    (∀ (α : Type) (parse : String → Except String α) (body : String),
      loadJSON parse (.response false body) =
        (none, ["Error loading: Failed to load"])) ∧
    (∀ (α : Type) (parse : String → Except String α) (body : String),
      loadJSON parse (.response true body) =
        ((parse body).toOption,
          match parse body with
          | .ok _ => []
          | .error msg => ["Error loading: " ++ msg])) ∧
    (∀ (α : Type) (parse : String → Except String α) (o : FetchOutcome),
      (loadJSON parse o).1 = none ↔ (loadJSON parse o).2 ≠ []) ∧
    (∀ (profile : Option Profile) (skills : Option SkillsDoc)
        (experience : Option ExperienceDoc) (projects : Option ProjectsDoc)
        (achievements : Option AchievementsDoc) (page : Page),
      (runStartup profile skills experience projects achievements
          page).heroRoles =
        (match profile with
         | some d => rolesHTML d.roles | none => page.heroRoles) ∧
      (runStartup profile skills experience projects achievements
          page).contactButtons =
        (match profile with
         | some d => contactButtonsHTML d.social | none => page.contactButtons) ∧
      (runStartup profile skills experience projects achievements
          page).skillsGrid =
        (match skills with
         | some d => skillsGridHTML d | none => page.skillsGrid) ∧
      (runStartup profile skills experience projects achievements
          page).experienceTimeline =
        (match experience with
         | some d => experienceTimelineHTML d | none => page.experienceTimeline) ∧
      (runStartup profile skills experience projects achievements
          page).projectsFilter =
        (match projects with
         | some d => filterButtonsHTML d | none => page.projectsFilter) ∧
      (runStartup profile skills experience projects achievements
          page).projectsGrid =
        (match projects with
         | some d => projectsGridHTML d | none => page.projectsGrid) ∧
      (runStartup profile skills experience projects achievements
          page).achievementsGrid =
        (match achievements with
         | some d => achievementsGridHTML d | none => page.achievementsGrid)) := by
  refine ⟨fun α parse msg => rfl, fun α parse body => rfl, ?_, ?_, ?_⟩
  · intro α parse body
    cases hp : parse body <;> simp [loadJSON, hp, Except.toOption]
  · intro α parse o
    cases o with
    | netError msg => simp [loadJSON]
    | response ok body =>
      cases ok with
      | false => simp [loadJSON]
      | true => cases hp : parse body <;> simp [loadJSON, hp]
  · intro profile skills experience projects achievements page
    cases profile <;> cases skills <;> cases experience <;> cases projects <;>
      cases achievements <;>
      simp [runStartup, renderProfile, renderSkills, renderExperience,
        renderProjects, renderAchievements]

/-- C8: one scroll-spy update keeps at most one navigation link active, for
every scroll position and every arrangement of identified sections, given
the DOM contract that the nav links carry pairwise-distinct hrefs and that
at most one link was active before the update. -/
theorem scroll_spy_at_most_one_active (y : Int) (sections : List PageSection)
    (links : List NavLink) (hnd : (links.map fun l => l.href).Nodup)
    (h1 : activeCount links ≤ 1) :
    activeCount (updateActiveNav y sections links) ≤ 1 := by
  unfold updateActiveNav
  induction sections generalizing links with
  | nil => exact h1
  | cons s ss ih =>
    simp only [List.foldl_cons]
    by_cases hc : s.offsetTop - 100 ≤ y ∧ y < s.offsetTop - 100 + s.offsetHeight
    · rw [if_pos hc]
      apply ih
      · rw [List.map_map]
        exact hnd
      · exact activeCount_mark_le_one _ _ hnd
    · rw [if_neg hc]
      exact ih links hnd h1

/-- C8 witness: two links with distinct hrefs, none active, stay at most one
active after an update over two sections. -/
theorem scroll_spy_at_most_one_active_witness :
    (([⟨"#home", false⟩, ⟨"#about", false⟩] : List NavLink).map
        fun l => l.href).Nodup ∧
    activeCount [⟨"#home", false⟩, ⟨"#about", false⟩] ≤ 1 ∧
    activeCount (updateActiveNav 120 [⟨"home", 0, 400⟩, ⟨"about", 400, 400⟩]
      [⟨"#home", false⟩, ⟨"#about", false⟩]) ≤ 1 :=
  ⟨by decide, by decide,
    scroll_spy_at_most_one_active 120 [⟨"home", 0, 400⟩, ⟨"about", 400, 400⟩]
      [⟨"#home", false⟩, ⟨"#about", false⟩] (by decide) (by decide)⟩

end Portfolio
